import Mathlib

/-!
Verification of the trigger lifecycle engine of
`src/extensionPoints/triggerExtension.ts` (PixieBrix browser extension).

The TypeScript source is shallowly embedded: pure functions become Lean
functions; the mutable per-instance state (`reportedEvents`,
`reportedErrors`, installed DOM listeners) becomes explicit state passing;
asynchronous code whose scheduling is single-threaded and sequential in the
source (`await` chains, sequential `Promise.all` result collection) is
modelled by sequential folds; fallible operations return `Except`.
External collaborators (the pipeline executor `reduceExtensionPipeline`,
the context reader `reader.read`, `makeServiceContext`) are parameters
supplying each call's outcome.
-/

/-- `ReportMode` from triggerExtension.ts: `once` reports events/errors only
once per extension per page; `all` reports every event. -/
inductive ReportMode
  | once
  | all
deriving DecidableEq, Repr

/-- `AttachMode` from triggerExtension.ts: `once` attaches handlers once,
`watch` also watches for new matching elements. -/
inductive AttachMode
  | once
  | watch
deriving DecidableEq, Repr

/-- `TargetMode` from triggerExtension.ts. -/
inductive TargetMode
  | eventTarget
  | root
deriving DecidableEq, Repr

/-- The `Trigger` union type from triggerExtension.ts.  The source's
element-insertion kind (spelled "ini-tialize" in the source) is named
`domInserted` here. -/
inductive Trigger
  | load
  | interval
  | appear
  | domInserted
  | blur
  | click
  | dblclick
  | mouseover
  | keydown
  | keyup
  | keypress
  | change
  | selectionchange
  | statechange
  | custom
deriving DecidableEq, Repr

/-- The string name of a trigger kind, as it appears in the source union
(used in the `assertElement` error message interpolation). -/
def triggerName : Trigger → String
  | Trigger.load => "load"
  | Trigger.interval => "interval"
  | Trigger.appear => "appear"
  | Trigger.domInserted => "initialize"
  | Trigger.blur => "blur"
  | Trigger.click => "click"
  | Trigger.dblclick => "dblclick"
  | Trigger.mouseover => "mouseover"
  | Trigger.keydown => "keydown"
  | Trigger.keyup => "keyup"
  | Trigger.keypress => "keypress"
  | Trigger.change => "change"
  | Trigger.selectionchange => "selectionchange"
  | Trigger.statechange => "statechange"
  | Trigger.custom => "custom"

/-- `USER_ACTION_TRIGGERS` from triggerExtension.ts. -/
def USER_ACTION_TRIGGERS : List Trigger :=
  [Trigger.click, Trigger.dblclick, Trigger.blur, Trigger.mouseover]

/-- `getDefaultReportModeForTrigger` from triggerExtension.ts. -/
def getDefaultReportModeForTrigger (trigger : Trigger) : ReportMode :=
  if USER_ACTION_TRIGGERS.contains trigger then ReportMode.all else ReportMode.once

/- ## Report Gate -/

/-- Extension (automation) identifiers; `UUID` in the source. -/
abbrev UUID := Nat

/-- The two `Set<UUID>` fields `reportedEvents` and `reportedErrors` of
`TriggerExtensionPoint` (tracked per content-script instance). -/
structure GateState where
  reportedEvents : List UUID
  reportedErrors : List UUID
deriving DecidableEq, Repr

/-- The fresh gate state of a newly constructed instance (`new Set()`). -/
def freshGate : GateState := ⟨[], []⟩

/-- JS `Set.add`: inserts the element if absent, otherwise leaves the set
unchanged. -/
def setAdd (s : List UUID) (id : UUID) : List UUID :=
  if id ∈ s then s else id :: s

/-- `TriggerExtensionPoint.shouldReport` from triggerExtension.ts:
under `once`, report iff not already reported; under `all`, always. -/
def shouldReport (mode : ReportMode) (alreadyReported : Bool) : Bool :=
  match mode with
  | ReportMode.once => !alreadyReported
  | ReportMode.all => true

/-- `TriggerExtensionPoint.shouldReportError`: membership test of
`reportedErrors`, then unconditional `add`, then `shouldReport`.  Returns
the decision and the updated state. -/
def shouldReportError (mode : ReportMode) (st : GateState) (extensionId : UUID) :
    Bool × GateState :=
  let alreadyReported : Bool := decide (extensionId ∈ st.reportedErrors)
  (shouldReport mode alreadyReported,
    { st with reportedErrors := setAdd st.reportedErrors extensionId })

/-- `TriggerExtensionPoint.shouldReportEvent`: membership test of
`reportedEvents`, then unconditional `add`, then `shouldReport`. -/
def shouldReportEvent (mode : ReportMode) (st : GateState) (extensionId : UUID) :
    Bool × GateState :=
  let alreadyReported : Bool := decide (extensionId ∈ st.reportedEvents)
  (shouldReport mode alreadyReported,
    { st with reportedEvents := setAdd st.reportedEvents extensionId })

/-- One call made against the Report Gate during a page lifetime. -/
inductive GateCall
  | errCall (id : UUID)
  | evCall (id : UUID)
deriving DecidableEq, Repr

/-- State evolution of the gate under one call (the `Bool` decision of the
call is discarded; only the side effect on the sets remains). -/
def applyCall (mode : ReportMode) (st : GateState) (c : GateCall) : GateState :=
  match c with
  | GateCall.errCall id => (shouldReportError mode st id).2
  | GateCall.evCall id => (shouldReportEvent mode st id).2

/-- State after a sequence of gate calls. -/
def applyCalls (mode : ReportMode) (st : GateState) (cs : List GateCall) : GateState :=
  cs.foldl (applyCall mode) st

/- ## Reader context (JS object merge) -/

/-- A JavaScript value as far as the read context needs: `null` or an
opaque serializable value. -/
inductive JsVal
  | null
  | str (s : String)
deriving DecidableEq, Repr

/-- A JavaScript object: a partial map from property names to values. -/
def JsObj := String → Option JsVal

/-- The read-context construction of `_runTrigger` (triggerExtension.ts
479-483): the object literal `{ event: nativeEvent ?
pickEventProperties(nativeEvent) : null, ...(await reader.read(root)) }`.
JS spread semantics: keys of the spread reader record override the earlier
`event` default (the source comment reads "The default reader overrides
the event property").  `eventProjection` is the already-projected
`pickEventProperties` value of the native event (external helper), `none`
when there is no native event. -/
def readerContext (eventProjection : Option JsVal) (readerOut : JsObj) : JsObj :=
  fun k =>
    match readerOut k with
    | some v => some v
    | none => if k = "event" then some (eventProjection.getD JsVal.null) else none

/- ## Firing Pipeline -/

/-- A configured automation (`ResolvedExtension`), referenced by id. -/
structure Extension where
  id : UUID
deriving DecidableEq, Repr

/-- Side effects of one firing, recorded for the theorems: number of
`reader.read` invocations, pipeline-executor invocations (by extension id,
in order), `reportError` telemetry calls, `reportEvent("TriggerRun")`
telemetry calls, and locally logged extension errors. -/
structure FiringEffects where
  readerCalls : Nat
  pipelineRuns : List UUID
  errorReports : List (UUID × String)
  eventReports : List UUID
  localErrorLogs : List (UUID × String)
deriving DecidableEq, Repr

/-- The all-zero effect record. -/
def noEffects : FiringEffects := ⟨0, [], [], [], []⟩

/-- The outcome of one `runExtension` call: the promise's own outcome,
whether the pipeline executor was actually invoked, and any errors logged
locally via `extensionLogger.error`. -/
structure ExtensionRunResult where
  outcome : Except String Unit
  ranPipeline : Bool
  localErrorLogs : List String
deriving Repr

/-- `TriggerExtensionPoint.runExtension` (384-412).  `services ext.id` is
the outcome of the external `makeServiceContext` call (awaited outside the
try block, so its rejection propagates); `exec ext.id ctxt` is the outcome
of the external pipeline executor `reduceExtensionPipeline` on the shared
read context.  The try/catch around the executor (marked `FIXME`
issue 2910 in the source) logs a pipeline error locally via
`extensionLogger.error` and swallows it: the returned promise resolves
even when the pipeline fails. -/
def runExtension (services : UUID → Except String Unit)
    (exec : UUID → JsObj → Except String Unit) (ctxt : JsObj)
    (ext : Extension) : ExtensionRunResult :=
  match services ext.id with
  | Except.error e => ⟨Except.error e, false, []⟩
  | Except.ok _ =>
    match exec ext.id ctxt with
    | Except.ok _ => ⟨Except.ok (), true, []⟩
    | Except.error e => ⟨Except.ok (), true, [e]⟩

/-- One step of the `Promise.all` result collection in `_runTrigger`
(485-504): run the extension; if its promise rejected, consult the error
Report Gate (maybe forwarding to `reportError`) and fulfil with the error;
otherwise consult the event Report Gate (maybe emitting a `TriggerRun`
event) and fulfil with nothing.  The accumulator carries the fulfilled
values in order, the gate state and the recorded effects. -/
def runTriggerFold (mode : ReportMode) (services : UUID → Except String Unit)
    (exec : UUID → JsObj → Except String Unit) (ctxt : JsObj)
    (acc : List (Option String) × GateState × FiringEffects) (ext : Extension) :
    List (Option String) × GateState × FiringEffects :=
  let (outs, st, eff) := acc
  let r := runExtension services exec ctxt ext
  let eff :=
    { eff with
      pipelineRuns := eff.pipelineRuns ++ (if r.ranPipeline then [ext.id] else [])
      localErrorLogs :=
        eff.localErrorLogs ++ r.localErrorLogs.map (fun e => (ext.id, e)) }
  match r.outcome with
  | Except.error e =>
    let (report, st') := shouldReportError mode st ext.id
    (outs ++ [some e], st',
      { eff with
        errorReports := eff.errorReports ++ (if report then [(ext.id, e)] else []) })
  | Except.ok _ =>
    let (report, st') := shouldReportEvent mode st ext.id
    (outs ++ [none], st',
      { eff with
        eventReports := eff.eventReports ++ (if report then [ext.id] else []) })

/-- `TriggerExtensionPoint._runTrigger` (457-506): filter the extensions
by the eligibility predicate; if none match, return an empty error list
without touching the reader; otherwise read the context once
(`readerResult` is the outcome of the external `reader.read(root)`; its
rejection propagates as the firing's rejection), build the merged read
context, run every eligible extension collecting the fulfilled values,
and `compact` the error list.  Returns the firing outcome, the updated
gate state and the recorded effects. -/
def runTrigger (mode : ReportMode) (services : UUID → Except String Unit)
    (exec : UUID → JsObj → Except String Unit)
    (readerResult : Except String JsObj) (eventProjection : Option JsVal)
    (extensions : List Extension) (shouldRunExtension : Extension → Bool)
    (st : GateState) :
    Except String (List String) × GateState × FiringEffects :=
  let extensionsToRun := extensions.filter shouldRunExtension
  if extensionsToRun.isEmpty then
    (Except.ok [], st, noEffects)
  else
    match readerResult with
    | Except.error e => (Except.error e, st, { noEffects with readerCalls := 1 })
    | Except.ok readerOut =>
      let ctxt := readerContext eventProjection readerOut
      let (outs, st', eff) :=
        extensionsToRun.foldl (runTriggerFold mode services exec ctxt)
          ([], st, { noEffects with readerCalls := 1 })
      (Except.ok (outs.filterMap id), st', eff)

/-- Modelled from the spec: the external `pluralize(count, single,
plural)` utility (`@/utils/pluralize`, not under src/) — the singular form
for a count of one, otherwise the plural template with the `$$`
placeholder replaced by the count. -/
def pluralize (n : Nat) (single plural : String) : String :=
  if n = 1 then single else plural.replace "$$" (toString n)

/-- `TriggerExtensionPoint.notifyErrors` (533-545): nothing for an empty
error list; otherwise exactly one `notify.error` toast with the
count-pluralized message.  Returns the list of emitted notifications. -/
def notifyErrors (errors : List String) : List String :=
  if errors.length = 0 then []
  else
    ["An error occurred running " ++ pluralize errors.length "a trigger" "$$ triggers"]

/-- `TriggerExtensionPoint._runTriggersAndNotify` (511-527) over the
settled per-root `_runTrigger` outcomes (`Promise.allSettled`):
`rootResults` holds, for each root of the dispatch, either the fulfilled
automation error list or the rejection reason (e.g. a reader error).  The
source flattens with `flatMap`, which keeps a scalar rejection reason as a
single element.  Returns the flattened error list and the emitted
notifications. -/
def runTriggersAndNotify (rootResults : List (Except String (List String))) :
    List String × List String :=
  let errors :=
    (rootResults.map (fun x =>
      match x with
      | Except.ok v => v
      | Except.error e => [e])).flatten
  (errors, notifyErrors errors)

/- ## Interval Runner -/

/-- The try/catch around the interval effect body (181-193): any rejection
of the effect is caught and ignored (`catch { // NOP }`). -/
def tryCatchNop (r : Except String Unit) : Except String Unit :=
  match r with
  | Except.ok _ => Except.ok ()
  | Except.error _ => Except.ok ()

/-- The `while (!signal.aborted)` loop of `interval` (168-205), embedded
with explicit fuel (the event loop gives no termination bound when the
signal never aborts).  `aborted i` is the state of the cancellation signal
at the i-th loop-condition check; `effect i` is the outcome of the i-th
`effectGenerator()` call.  Returns the indices of the iterations whose
effect body ran and `some k` when the loop observed the abort at check `k`
(`none` when the fuel ran out first, i.e. the loop is still live).  An
uncaught body error would surface as `Except.error`. -/
def intervalLoop (aborted : Nat → Bool) (effect : Nat → Except String Unit) :
    Nat → Nat → Except String (List Nat × Option Nat)
  | 0, _ => Except.ok ([], none)
  | fuel + 1, i =>
    if aborted i then Except.ok ([], some i)
    else
      match tryCatchNop (effect i) with
      | Except.error e => Except.error e
      | Except.ok _ =>
        match intervalLoop aborted effect fuel (i + 1) with
        | Except.error e => Except.error e
        | Except.ok (l, fin) => Except.ok (i :: l, fin)

/-- `interval` (168-205): sleep one full period (no leading fire), then
run the loop from check 0. -/
def interval (aborted : Nat → Bool) (effect : Nat → Except String Unit)
    (fuel : Nat) : Except String (List Nat × Option Nat) :=
  intervalLoop aborted effect fuel 0

/- ## DOM listener registry -/

/-- A DOM node: the document or an element. -/
inductive DomNode
  | document
  | elem (n : Nat)
deriving DecidableEq, Repr

/-- The native listeners currently registered by one trigger instance with
its stable `boundEventHandler`: a multiset of (node, native event name)
pairs.  The handler reference is unique to the instance, so other
instances' listeners live outside this bag. -/
abbrev ListenerBag := List (DomNode × String)

/-- jQuery `$nodes.off(ev, boundEventHandler)`: removes every registration
of the bound handler for that event on the given nodes. -/
def offEvent (bag : ListenerBag) (nodes : List DomNode) (ev : String) : ListenerBag :=
  bag.filter (fun e => !(e.2 == ev && nodes.contains e.1))

/-- jQuery `$nodes.on(ev, boundEventHandler)`: appends one registration
per node. -/
def onEvent (bag : ListenerBag) (nodes : List DomNode) (ev : String) : ListenerBag :=
  bag ++ nodes.map (fun n => (n, ev))

/-- `attachDOMTrigger` (696-760), listener discipline: always `.off` the
bound handler for the event before `.on` (the source comment: avoid
duplicate events on SPA navigations and on `watch`-mode re-fires). -/
def attachDOMTrigger (bag : ListenerBag) (nodes : List DomNode) (ev : String) :
    ListenerBag :=
  onEvent (offEvent bag nodes ev) nodes ev

/-- `attachDocumentTrigger` (681-694): `.off` then `.on` of the bound
handler on the document. -/
def attachDocumentTrigger (bag : ListenerBag) (ev : String) : ListenerBag :=
  onEvent (offEvent bag [DomNode.document] ev) [DomNode.document] ev

/-- Number of registrations of the instance's bound handler for a
(node, event) pair. -/
def listenerCount (bag : ListenerBag) (n : DomNode) (ev : String) : Nat :=
  (bag.filter (fun e => e.1 == n && e.2 == ev)).length

/- ## run() dispatch -/

/-- The configuration surface of a trigger instance that `run()` consults
(the abstract getters of `TriggerExtensionPoint`).  `trigger = none`
models an undefined trigger kind (the falsy check in run's default
branch). -/
structure RunConfig where
  trigger : Option Trigger
  attachMode : AttachMode
  targetMode : TargetMode
  reportMode : ReportMode
  intervalMillis : Int
  customEventName : Option String
deriving DecidableEq, Repr

/-- The result of `getRoot()` (547-575): `$(document)` when no selector is
configured, otherwise the currently matching elements (possibly none). -/
inductive RootResolved
  | document
  | elements (es : List Nat)
deriving DecidableEq, Repr

/-- The observable attachments `run()` can make. -/
inductive RunAction
  | fireImmediate
  | attachIntervalLoop (ms : Int)
  | attachInsertionObserver
  | attachAppearObserver
  | attachDocumentListener (ev : String)
  | attachDOMListener (ev : String) (watch : Bool)
deriving DecidableEq, Repr

/-- `assertElement` (762-768): throws `Trigger <kind> requires a selector`
when the resolved root is the whole document. -/
def assertElement (trigger : Trigger) (root : RootResolved) : Except String Unit :=
  match root with
  | RootResolved.document =>
    Except.error ("Trigger " ++ triggerName trigger ++ " requires a selector")
  | RootResolved.elements _ => Except.ok ()

/-- The `domTrigger` computation at the head of `attachDOMTrigger`
(700-709): for `custom`, the configured custom event name (throwing when
absent); otherwise the trigger's own event name. -/
def domTriggerEvent (cfg : RunConfig) (t : Trigger) : Except String String :=
  match t with
  | Trigger.custom =>
    match cfg.customEventName with
    | some ev => Except.ok ev
    | none => Except.error "No trigger event configured for extension point"
  | _ => Except.ok (triggerName t)

/-- `attachInterval` (577-605): attaches the interval loop only for a
positive period; otherwise logs a warning and attaches nothing. -/
def attachInterval (cfg : RunConfig) : List RunAction :=
  if cfg.intervalMillis > 0 then [RunAction.attachIntervalLoop cfg.intervalMillis]
  else []

/-- `run()` (770-825): dispatch on the trigger kind over the resolved
root.  Returns the attachments made, or the thrown error — in which case
nothing was attached, since every `assertElement` / configuration check
precedes the attach call in the source.  The source's element-insertion
kind is `Trigger.domInserted` here. -/
def run (cfg : RunConfig) (root : RootResolved) : Except String (List RunAction) :=
  match cfg.trigger with
  | some Trigger.load => Except.ok [RunAction.fireImmediate]
  | some Trigger.interval => Except.ok (attachInterval cfg)
  | some Trigger.domInserted => Except.ok [RunAction.attachInsertionObserver]
  | some Trigger.appear =>
    match assertElement Trigger.appear root with
    | Except.error e => Except.error e
    | Except.ok _ => Except.ok [RunAction.attachAppearObserver]
  | some Trigger.selectionchange =>
    Except.ok [RunAction.attachDocumentListener "selectionchange"]
  | some Trigger.statechange =>
    Except.ok [RunAction.attachDocumentListener "statechange"]
  | some Trigger.custom =>
    match domTriggerEvent cfg Trigger.custom with
    | Except.error e => Except.error e
    | Except.ok ev => Except.ok [RunAction.attachDOMListener ev false]
  | some t =>
    match assertElement t root with
    | Except.error e => Except.error e
    | Except.ok _ =>
      match domTriggerEvent cfg t with
      | Except.error e => Except.error e
      | Except.ok ev =>
        Except.ok
          [RunAction.attachDOMListener ev (cfg.attachMode == AttachMode.watch)]
  | none => Except.error "No trigger event configured for extension point"

/-- The trigger kinds that `run()` routes through `assertElement`, i.e.
`appear` and the non-document native DOM event kinds handled by the
default branch. -/
def requiresSelector : Trigger → Bool
  | Trigger.appear => true
  | Trigger.blur => true
  | Trigger.click => true
  | Trigger.dblclick => true
  | Trigger.mouseover => true
  | Trigger.keydown => true
  | Trigger.keyup => true
  | Trigger.keypress => true
  | Trigger.change => true
  | _ => false

/- ## Remote declarative configuration -/

/-- The remote declarative `TriggerDefinition` (830-892): every
engine-relevant field optional. -/
structure TriggerDefinition where
  trigger : Option Trigger
  rootSelector : Option String
  attachMode : Option AttachMode
  targetMode : Option TargetMode
  reportMode : Option ReportMode
  intervalMillis : Option Int
  customEventName : Option String
  background : Option Bool
deriving DecidableEq, Repr

namespace RemoteTriggerExtensionPoint

/-- `RemoteTriggerExtensionPoint.trigger` getter (926-928): an absent
trigger kind defaults to `load`. -/
def trigger (d : TriggerDefinition) : Trigger :=
  d.trigger.getD Trigger.load

/-- `RemoteTriggerExtensionPoint.intervalMillis` getter (945-947):
defaults to 0. -/
def intervalMillis (d : TriggerDefinition) : Int :=
  d.intervalMillis.getD 0

/-- `RemoteTriggerExtensionPoint.attachMode` getter (934-936). -/
def attachMode (d : TriggerDefinition) : AttachMode :=
  d.attachMode.getD AttachMode.once

/-- `RemoteTriggerExtensionPoint.targetMode` getter (930-932). -/
def targetMode (d : TriggerDefinition) : TargetMode :=
  d.targetMode.getD TargetMode.eventTarget

/-- `RemoteTriggerExtensionPoint.reportMode` getter (938-943). -/
def reportMode (d : TriggerDefinition) : ReportMode :=
  d.reportMode.getD (getDefaultReportModeForTrigger (trigger d))

end RemoteTriggerExtensionPoint

/-- The `RunConfig` a remote-configured instance (constructed by `fromJS`,
966-975) presents to `run()`: its trigger getter never yields an undefined
kind. -/
def remoteRunConfig (d : TriggerDefinition) : RunConfig :=
  { trigger := some (RemoteTriggerExtensionPoint.trigger d)
    attachMode := RemoteTriggerExtensionPoint.attachMode d
    targetMode := RemoteTriggerExtensionPoint.targetMode d
    reportMode := RemoteTriggerExtensionPoint.reportMode d
    intervalMillis := RemoteTriggerExtensionPoint.intervalMillis d
    customEventName := d.customEventName }

lemma setAdd_mem (s : List UUID) (id id' : UUID) :
    id' ∈ setAdd s id ↔ id' ∈ s ∨ id' = id := by
  unfold setAdd
  by_cases h : id ∈ s
  · simp only [h, if_true]
    constructor
    · exact Or.inl
    · rintro (hm | rfl)
      · exact hm
      · exact h
  · simp [h, List.mem_cons, or_comm]

lemma applyCalls_reportedErrors_mem (mode : ReportMode) (st : GateState)
    (cs : List GateCall) (id : UUID) :
    id ∈ (applyCalls mode st cs).reportedErrors
      ↔ id ∈ st.reportedErrors ∨ GateCall.errCall id ∈ cs := by
  induction cs generalizing st with
  | nil => simp [applyCalls]
  | cons c cs ih =>
    have step : applyCalls mode st (c :: cs) = applyCalls mode (applyCall mode st c) cs := rfl
    rw [step, ih]
    cases c with
    | errCall j =>
      simp only [applyCall, shouldReportError, List.mem_cons, setAdd_mem]
      constructor
      · rintro ((hm | rfl) | hc)
        · exact Or.inl hm
        · exact Or.inr (Or.inl rfl)
        · exact Or.inr (Or.inr hc)
      · rintro (hm | (heq | hc))
        · exact Or.inl (Or.inl hm)
        · cases heq
          exact Or.inl (Or.inr rfl)
        · exact Or.inr hc
    | evCall j =>
      simp only [applyCall, shouldReportEvent, List.mem_cons]
      constructor
      · rintro (hm | hc)
        · exact Or.inl hm
        · exact Or.inr (Or.inr hc)
      · rintro (hm | (heq | hc))
        · exact Or.inl hm
        · exact absurd heq (by simp)
        · exact Or.inr hc

lemma applyCalls_reportedEvents_mem (mode : ReportMode) (st : GateState)
    (cs : List GateCall) (id : UUID) :
    id ∈ (applyCalls mode st cs).reportedEvents
      ↔ id ∈ st.reportedEvents ∨ GateCall.evCall id ∈ cs := by
  induction cs generalizing st with
  | nil => simp [applyCalls]
  | cons c cs ih =>
    have step : applyCalls mode st (c :: cs) = applyCalls mode (applyCall mode st c) cs := rfl
    rw [step, ih]
    cases c with
    | evCall j =>
      simp only [applyCall, shouldReportEvent, List.mem_cons, setAdd_mem]
      constructor
      · rintro ((hm | rfl) | hc)
        · exact Or.inl hm
        · exact Or.inr (Or.inl rfl)
        · exact Or.inr (Or.inr hc)
      · rintro (hm | (heq | hc))
        · exact Or.inl (Or.inl hm)
        · cases heq
          exact Or.inl (Or.inr rfl)
        · exact Or.inr hc
    | errCall j =>
      simp only [applyCall, shouldReportError, List.mem_cons]
      constructor
      · rintro (hm | hc)
        · exact Or.inl hm
        · exact Or.inr (Or.inr hc)
      · rintro (hm | (heq | hc))
        · exact Or.inl hm
        · exact absurd heq (by simp)
        · exact Or.inr hc

/-- Claim C3: under reportMode=once, `shouldReportError`
(resp. `shouldReportEvent`) returns true on the first call with an id and
false on every subsequent call with the same id, for any interleaving of
gate calls starting from a fresh instance; under reportMode=all it returns
true on every call.  The decision for errors depends only on prior error
calls and the decision for events only on prior event calls, so the two
sets are independent. -/
theorem shouldReport_once_exactly_first_and_independent :
    ∀ (cs : List GateCall) (id : UUID),
      ((shouldReportError ReportMode.once (applyCalls ReportMode.once freshGate cs) id).1 = true
        ↔ GateCall.errCall id ∉ cs)
      ∧ ((shouldReportEvent ReportMode.once (applyCalls ReportMode.once freshGate cs) id).1 = true
        ↔ GateCall.evCall id ∉ cs)
      ∧ (∀ st : GateState,
          (shouldReportError ReportMode.all st id).1 = true
          ∧ (shouldReportEvent ReportMode.all st id).1 = true) := by
  intro cs id
  refine ⟨?_, ?_, fun st => ⟨rfl, rfl⟩⟩
  · simp [shouldReportError, shouldReport, applyCalls_reportedErrors_mem, freshGate]
  · simp [shouldReportEvent, shouldReport, applyCalls_reportedEvents_mem, freshGate]

/-- Witness for C3 at a concrete trace: after one error call for id 7,
the second error decision under `once` is false, and on a fresh state the
first decision is true. -/
theorem shouldReport_once_witness :
    (shouldReportError ReportMode.once
        (applyCalls ReportMode.once freshGate [GateCall.errCall 7]) 7).1 = false
    ∧ (shouldReportError ReportMode.once (applyCalls ReportMode.once freshGate []) 7).1
        = true := by
  constructor
  · have h := (shouldReport_once_exactly_first_and_independent [GateCall.errCall 7] 7).1
    cases hb : (shouldReportError ReportMode.once
        (applyCalls ReportMode.once freshGate [GateCall.errCall 7]) 7).1
    · rfl
    · exact absurd (h.mp hb) (by simp)
  · exact ((shouldReport_once_exactly_first_and_independent [] 7).1).mpr (by simp)

/-- Claim C6: a firing in which the eligibility predicate accepts no
automation returns an empty error list without invoking the context reader
and without invoking the pipeline executor for any automation (and leaves
the gate state untouched): the result is exactly the no-effect record. -/
theorem runTrigger_no_eligible_no_reader (mode : ReportMode)
    (services : UUID → Except String Unit) (exec : UUID → JsObj → Except String Unit)
    (readerResult : Except String JsObj) (eventProjection : Option JsVal)
    (extensions : List Extension) (shouldRunExtension : Extension → Bool)
    (st : GateState)
    (h : extensions.filter shouldRunExtension = []) :
    runTrigger mode services exec readerResult eventProjection extensions
        shouldRunExtension st = (Except.ok [], st, noEffects) := by
  unfold runTrigger
  simp [h]

/-- Witness for C6: two automations, an eligibility predicate (as for a
statechange firing whose state key matches neither) rejecting both — no
reader call, no pipeline call, empty error list. -/
theorem runTrigger_no_eligible_no_reader_witness :
    runTrigger ReportMode.once (fun _ => Except.ok ()) (fun _ _ => Except.ok ())
        (Except.ok (fun _ => none)) none [⟨0⟩, ⟨1⟩] (fun _ => false) freshGate
      = (Except.ok [], freshGate, noEffects) :=
  runTrigger_no_eligible_no_reader ReportMode.once (fun _ => Except.ok ())
    (fun _ _ => Except.ok ()) (Except.ok (fun _ => none)) none [⟨0⟩, ⟨1⟩]
    (fun _ => false) freshGate rfl

/-- Claim C1 (code bug, `FIXME` issue 2910 in the source): for an eligible
automation whose pipeline execution fails, the error is NOT forwarded to
the error collector even though the Report Gate would allow it, and the
failure is NOT included in the firing's returned error list — the
try/catch inside `runExtension` swallows the pipeline error after logging
it locally, so `_runTrigger`'s reporting branch is unreachable for
pipeline failures and the firing even emits a success `TriggerRun` event.
Concrete evaluation: one eligible automation (id 0), fresh gate,
reportMode=once, pipeline executor rejecting — the Report Gate allows
reporting (first conjunct) yet the firing fulfils with an empty error
list, no `reportError` call, a `TriggerRun` success report, and only a
local log of the failure. -/
theorem runTrigger_pipeline_error_swallowed :
    (shouldReportError ReportMode.once freshGate 0).1 = true
    ∧ runTrigger ReportMode.once (fun _ => Except.ok ())
        (fun _ _ => Except.error "pipeline failed")
        (Except.ok (fun _ => none)) none [⟨0⟩] (fun _ => true) freshGate
      = (Except.ok [],
          (⟨[0], []⟩ : GateState),
          (⟨1, [0], [], [0], [(0, "pipeline failed")]⟩ : FiringEffects)) := by
  constructor
  · rfl
  · rfl

/-- A reader record that itself contains an `event` property (readers are
external and may return any record). -/
def readerOutWithEvent : JsObj :=
  fun k => if k = "event" then some (JsVal.str "fromReader") else none

/-- Claim C2 counterexample: with a native event whose projection is
`fromEvent` and a reader record mapping `event` to `fromReader`, the merged
read context maps `event` to the reader's value, not the native event
projection — the spread of the reader output comes second in the object
literal, so the reader wins the key collision (as the source comment
itself states). -/
theorem readerContext_event_collision_counterexample :
    readerContext (some (JsVal.str "fromEvent")) readerOutWithEvent "event"
        = some (JsVal.str "fromReader")
    ∧ readerContext (some (JsVal.str "fromEvent")) readerOutWithEvent "event"
        ≠ some (JsVal.str "fromEvent") := by
  constructor
  · rfl
  · intro h
    simp [readerContext, readerOutWithEvent] at h

lemma runTriggerFold_readerCalls (mode : ReportMode)
    (services : UUID → Except String Unit) (exec : UUID → JsObj → Except String Unit)
    (ctxt : JsObj) (acc : List (Option String) × GateState × FiringEffects)
    (ext : Extension) :
    (runTriggerFold mode services exec ctxt acc ext).2.2.readerCalls
      = acc.2.2.readerCalls := by
  obtain ⟨outs, st, eff⟩ := acc
  unfold runTriggerFold
  cases h : (runExtension services exec ctxt ext).outcome <;> simp [h]

lemma foldl_runTriggerFold_readerCalls (mode : ReportMode)
    (services : UUID → Except String Unit) (exec : UUID → JsObj → Except String Unit)
    (ctxt : JsObj) (l : List Extension)
    (acc : List (Option String) × GateState × FiringEffects) :
    (l.foldl (runTriggerFold mode services exec ctxt) acc).2.2.readerCalls
      = acc.2.2.readerCalls := by
  induction l generalizing acc with
  | nil => rfl
  | cons e l ih => rw [List.foldl_cons, ih, runTriggerFold_readerCalls]

lemma runTriggerFold_exec_congr (mode : ReportMode)
    (services : UUID → Except String Unit)
    (exec exec' : UUID → JsObj → Except String Unit) (ctxt : JsObj)
    (hagree : ∀ id, exec id ctxt = exec' id ctxt)
    (acc : List (Option String) × GateState × FiringEffects) (ext : Extension) :
    runTriggerFold mode services exec ctxt acc ext
      = runTriggerFold mode services exec' ctxt acc ext := by
  unfold runTriggerFold runExtension
  rw [hagree ext.id]

lemma foldl_runTriggerFold_exec_congr (mode : ReportMode)
    (services : UUID → Except String Unit)
    (exec exec' : UUID → JsObj → Except String Unit) (ctxt : JsObj)
    (hagree : ∀ id, exec id ctxt = exec' id ctxt) (l : List Extension)
    (acc : List (Option String) × GateState × FiringEffects) :
    l.foldl (runTriggerFold mode services exec ctxt) acc
      = l.foldl (runTriggerFold mode services exec' ctxt) acc := by
  induction l generalizing acc with
  | nil => rfl
  | cons e l ih =>
    rw [List.foldl_cons, List.foldl_cons,
      runTriggerFold_exec_congr mode services exec exec' ctxt hagree, ih]

/-- Claim C2 as amended: for a firing with eligible automations, the read
context is built exactly once (one reader call regardless of the number of
automations), every automation's pipeline is executed against that single
merged context `readerContext`, and the merge gives the READER's value
precedence on a key collision — the native event projection only fills the
`event` key when the reader record lacks it (with `null` when there is no
native event). -/
theorem runTrigger_context_once_reader_precedence
    (mode : ReportMode) (services : UUID → Except String Unit)
    (exec exec' : UUID → JsObj → Except String Unit)
    (readerOut : JsObj) (eventProjection : Option JsVal)
    (extensions : List Extension) (shouldRunExtension : Extension → Bool)
    (st : GateState) (k : String) (v : JsVal) :
    (extensions.filter shouldRunExtension ≠ [] →
      (runTrigger mode services exec (Except.ok readerOut) eventProjection
          extensions shouldRunExtension st).2.2.readerCalls = 1)
    ∧ ((∀ id, exec id (readerContext eventProjection readerOut)
          = exec' id (readerContext eventProjection readerOut)) →
        runTrigger mode services exec (Except.ok readerOut) eventProjection
            extensions shouldRunExtension st
          = runTrigger mode services exec' (Except.ok readerOut) eventProjection
              extensions shouldRunExtension st)
    ∧ (readerOut k = some v → readerContext eventProjection readerOut k = some v)
    ∧ (readerOut k = none →
        readerContext eventProjection readerOut k
          = if k = "event" then some (eventProjection.getD JsVal.null) else none) := by
  refine ⟨?_, ?_, ?_, ?_⟩
  · intro h
    unfold runTrigger
    have hne : (extensions.filter shouldRunExtension).isEmpty = false := by
      simpa [List.isEmpty_iff] using h
    simp only [hne, Bool.false_eq_true, if_false]
    rw [foldl_runTriggerFold_readerCalls]
  · intro hagree
    unfold runTrigger
    cases hne : (extensions.filter shouldRunExtension).isEmpty
    · simp only [Bool.false_eq_true, if_false]
      rw [foldl_runTriggerFold_exec_congr mode services exec exec'
        (readerContext eventProjection readerOut) hagree]
    · have hfil : extensions.filter shouldRunExtension = [] := by
        simpa [List.isEmpty_iff] using hne
      simp [hfil]
  · intro h
    unfold readerContext
    rw [h]
  · intro h
    unfold readerContext
    rw [h]

/-- Witness for C2's amended theorem: two eligible automations, one reader
call; and the collision/default equations at the concrete reader record
`readerOutWithEvent`. -/
theorem runTrigger_context_once_witness :
    (runTrigger ReportMode.all (fun _ => Except.ok ()) (fun _ _ => Except.ok ())
        (Except.ok readerOutWithEvent) none [⟨0⟩, ⟨1⟩] (fun _ => true)
        freshGate).2.2.readerCalls = 1
    ∧ readerContext none readerOutWithEvent "event" = some (JsVal.str "fromReader") := by
  constructor
  · exact (runTrigger_context_once_reader_precedence ReportMode.all
      (fun _ => Except.ok ()) (fun _ _ => Except.ok ()) (fun _ _ => Except.ok ())
      readerOutWithEvent none [⟨0⟩, ⟨1⟩] (fun _ => true) freshGate "x"
      JsVal.null).1 (by simp)
  · exact (runTrigger_context_once_reader_precedence ReportMode.all
      (fun _ => Except.ok ()) (fun _ _ => Except.ok ()) (fun _ _ => Except.ok ())
      readerOutWithEvent none [⟨0⟩, ⟨1⟩] (fun _ => true) freshGate "event"
      (JsVal.str "fromReader")).2.2.1 (by simp [readerOutWithEvent])

/-- Claim C5: for every dispatch call, the flattened error list (fulfilled
firings' automation errors plus rejected firings' reasons) triggers no
notification when empty, and exactly one notification with the
count-pluralized message when non-empty. -/
theorem runTriggersAndNotify_single_notification
    (rootResults : List (Except String (List String))) :
    ((runTriggersAndNotify rootResults).2.length
      = if (runTriggersAndNotify rootResults).1 = [] then 0 else 1)
    ∧ ((runTriggersAndNotify rootResults).1 ≠ [] →
        (runTriggersAndNotify rootResults).2
          = ["An error occurred running "
              ++ pluralize (runTriggersAndNotify rootResults).1.length
                  "a trigger" "$$ triggers"]) := by
  unfold runTriggersAndNotify notifyErrors
  constructor
  · cases h : (rootResults.map (fun x =>
        match x with
        | Except.ok v => v
        | Except.error e => [e])).flatten
    · simp [h]
    · simp [h]
  · intro hne
    simp only at hne ⊢
    cases h : (rootResults.map (fun x =>
        match x with
        | Except.ok v => v
        | Except.error e => [e])).flatten
    · exact absurd h hne
    · simp [h]

/-- Witness for C5: one root whose firing fulfilled with two automation
errors and one root that rejected with a reader error — one single
notification with the count-3 message, and an all-fulfilled empty
dispatch yields no notification. -/
theorem runTriggersAndNotify_single_notification_witness :
    (runTriggersAndNotify [Except.ok ["e1", "e2"], Except.error "reader"]).2
      = ["An error occurred running " ++ pluralize 3 "a trigger" "$$ triggers"]
    ∧ (runTriggersAndNotify [Except.ok [], Except.ok []]).2.length = 0 := by
  constructor
  · have h := (runTriggersAndNotify_single_notification
      [Except.ok ["e1", "e2"], Except.error "reader"]).2 (by decide)
    rw [h]
    rfl
  · have h := (runTriggersAndNotify_single_notification
      [Except.ok [], Except.ok []]).1
    have hnil : (runTriggersAndNotify [Except.ok [], Except.ok []]).1 = [] := rfl
    rw [h, if_pos hnil]

lemma intervalLoop_spec (aborted : Nat → Bool) (effect : Nat → Except String Unit) :
    ∀ (fuel i : Nat), ∃ l fin,
      intervalLoop aborted effect fuel i = Except.ok (l, fin)
      ∧ intervalLoop aborted (fun _ => Except.ok ()) fuel i = Except.ok (l, fin)
      ∧ (∀ k, fin = some k → aborted k = true)
      ∧ (∀ j, j ∈ l → aborted j = false) := by
  intro fuel
  induction fuel with
  | zero =>
    intro i
    refine ⟨[], none, rfl, rfl, ?_, ?_⟩
    · intro k hk
      cases hk
    · intro j hj
      cases hj
  | succ fuel ih =>
    intro i
    cases hab : aborted i
    · obtain ⟨l, fin, h1, h2, h3, h4⟩ := ih (i + 1)
      refine ⟨i :: l, fin, ?_, ?_, h3, ?_⟩
      · unfold intervalLoop
        rw [hab]
        simp only [Bool.false_eq_true, if_false]
        cases heff : effect i <;> simp [tryCatchNop, heff, h1]
      · unfold intervalLoop
        rw [hab]
        simp [tryCatchNop, h2]
      · intro j hj
        rcases List.mem_cons.mp hj with rfl | hmem
        · exact hab
        · exact h4 j hmem
    · refine ⟨[], some i, ?_, ?_, ?_, fun j hj => by cases hj⟩
      · unfold intervalLoop
        rw [hab]
        rfl
      · unfold intervalLoop
        rw [hab]
        rfl
      · intro k hk
        cases hk
        exact hab

/-- Claim C7: for every period and effect, the interval runner never
throws — its result is always a normal value even though the effect may
fail at any iteration — the schedule is entirely independent of the
effects' outcomes (a failing iteration is swallowed and the loop keeps
scheduling subsequent iterations), and the loop terminates only once the
cancellation signal is aborted: every executed iteration saw a
non-aborted signal, and a completed run ends exactly at an aborted
check. -/
theorem interval_swallows_never_throws (aborted : Nat → Bool)
    (effect : Nat → Except String Unit) (fuel : Nat) :
    ∃ l fin,
      interval aborted effect fuel = Except.ok (l, fin)
      ∧ interval aborted effect fuel = interval aborted (fun _ => Except.ok ()) fuel
      ∧ (∀ k, fin = some k → aborted k = true)
      ∧ (∀ j, j ∈ l → aborted j = false) := by
  obtain ⟨l, fin, h1, h2, h3, h4⟩ := intervalLoop_spec aborted effect fuel 0
  refine ⟨l, fin, h1, ?_, h3, h4⟩
  unfold interval
  rw [h1, h2]

/-- Witness for C7: a signal aborting at the third check and an effect
failing every iteration — the run equals the run with an always-succeeding
effect (failures swallowed, schedule unchanged). -/
theorem interval_swallows_never_throws_witness :
    interval (fun i => decide (2 ≤ i)) (fun _ => Except.error "boom") 5
      = interval (fun i => decide (2 ≤ i)) (fun _ => Except.ok ()) 5 := by
  obtain ⟨l, fin, h1, h2, h3, h4⟩ := interval_swallows_never_throws
    (fun i => decide (2 ≤ i)) (fun _ => Except.error "boom") 5
  exact h2

lemma listenerCount_cons (e : DomNode × String) (bag : ListenerBag)
    (n : DomNode) (ev : String) :
    listenerCount (e :: bag) n ev
      = (if (e.1 == n && e.2 == ev) = true then 1 else 0) + listenerCount bag n ev := by
  unfold listenerCount
  by_cases h : (e.1 == n && e.2 == ev) = true
  · rw [List.filter_cons, if_pos h, if_pos h, List.length_cons]
    omega
  · rw [List.filter_cons, if_neg h]
    simp [h]

lemma listenerCount_filter (bag : ListenerBag) (p : DomNode × String → Bool)
    (n : DomNode) (ev : String) :
    listenerCount (bag.filter p) n ev
      = if p (n, ev) = true then listenerCount bag n ev else 0 := by
  induction bag with
  | nil => by_cases hp : p (n, ev) = true <;> simp [listenerCount, hp]
  | cons e bag ih =>
    obtain ⟨a, b⟩ := e
    rw [List.filter_cons]
    by_cases hq : a = n ∧ b = ev
    · obtain ⟨rfl, rfl⟩ := hq
      by_cases hp : p (a, b) = true
      · rw [if_pos hp, if_pos hp, listenerCount_cons, listenerCount_cons, ih,
          if_pos hp]
      · rw [if_neg hp, if_neg hp, ih, if_neg hp]
    · have hqb : (((a, b).1 == n) && ((a, b).2 == ev)) = false := by
        rcases not_and_or.mp hq with h1 | h1 <;> simp [h1]
      by_cases hp : p (a, b) = true
      · rw [if_pos hp, listenerCount_cons, hqb, ih]
        by_cases hpn : p (n, ev) = true
        · rw [if_pos hpn, if_pos hpn, listenerCount_cons, hqb]
        · rw [if_neg hpn, if_neg hpn]
          simp
      · rw [if_neg hp, ih]
        by_cases hpn : p (n, ev) = true
        · rw [if_pos hpn, if_pos hpn, listenerCount_cons, hqb]
          simp
        · rw [if_neg hpn, if_neg hpn]

lemma listenerCount_append (b1 b2 : ListenerBag) (n : DomNode) (ev : String) :
    listenerCount (b1 ++ b2) n ev = listenerCount b1 n ev + listenerCount b2 n ev := by
  unfold listenerCount
  rw [List.filter_append, List.length_append]

lemma listenerCount_map_nodes (nodes : List DomNode) (ev : String)
    (n : DomNode) (ev' : String) :
    listenerCount (nodes.map (fun m => (m, ev))) n ev'
      = if ev' = ev then nodes.count n else 0 := by
  induction nodes with
  | nil => by_cases h : ev' = ev <;> simp [listenerCount, h]
  | cons m nodes ih =>
    rw [List.map_cons, listenerCount_cons, ih]
    by_cases hev : ev' = ev
    · subst hev
      rw [if_pos rfl, if_pos rfl, List.count_cons]
      by_cases hm : m = n
      · subst hm
        simp
        omega
      · have h1 : (((m, ev').1 == n) && ((m, ev').2 == ev')) = false := by
          simp [hm]
        have h2 : (m == n) = false := by
          simp [hm]
        rw [h1, h2]
        simp
    · have h1 : (((m, ev).1 == n) && ((m, ev).2 == ev')) = false := by
        simp [Ne.symm hev]
      rw [if_neg hev, if_neg hev, h1]
      simp

lemma listenerCount_offEvent (bag : ListenerBag) (nodes : List DomNode)
    (ev : String) (n : DomNode) (ev' : String) :
    listenerCount (offEvent bag nodes ev) n ev'
      = if ev' = ev ∧ n ∈ nodes then 0 else listenerCount bag n ev' := by
  unfold offEvent
  rw [listenerCount_filter]
  by_cases h : ev' = ev ∧ n ∈ nodes
  · obtain ⟨rfl, hn⟩ := h
    simp [hn]
  · rw [if_neg h, if_pos]
    rcases not_and_or.mp h with h1 | h1 <;> simp [h1]

lemma listenerCount_onEvent (bag : ListenerBag) (nodes : List DomNode)
    (ev : String) (n : DomNode) (ev' : String) :
    listenerCount (onEvent bag nodes ev) n ev'
      = listenerCount bag n ev' + (if ev' = ev then nodes.count n else 0) := by
  unfold onEvent
  rw [listenerCount_append, listenerCount_map_nodes]

lemma listenerCount_attachDOMTrigger (bag : ListenerBag) (nodes : List DomNode)
    (ev : String) (n : DomNode) (ev' : String) :
    listenerCount (attachDOMTrigger bag nodes ev) n ev'
      = (if ev' = ev ∧ n ∈ nodes then 0 else listenerCount bag n ev')
        + (if ev' = ev then nodes.count n else 0) := by
  unfold attachDOMTrigger
  rw [listenerCount_onEvent, listenerCount_offEvent]

/-- Claim C4: the attach routines detach the instance's stable bound
handler for the event from the target nodes before re-attaching it, so
after an attach each targeted (node, event) pair holds EXACTLY one
registration — regardless of how many it held before, hence repeated
`run()` re-arms and watch-mode re-fires never accumulate duplicates — all
other (node, event) registrations are untouched, and the "at most one
registration per (node, event) pair" invariant is preserved.  The same
holds for `attachDocumentTrigger` on the document.  (jQuery collections
hold distinct nodes: `nodes.Nodup`.) -/
theorem attachDOMTrigger_no_duplicate_listeners (bag : ListenerBag)
    (nodes : List DomNode) (ev : String) (hnd : nodes.Nodup) :
    (∀ n, n ∈ nodes → listenerCount (attachDOMTrigger bag nodes ev) n ev = 1)
    ∧ (∀ n ev', ¬(ev' = ev ∧ n ∈ nodes) →
        listenerCount (attachDOMTrigger bag nodes ev) n ev'
          = listenerCount bag n ev')
    ∧ (∀ n ev', listenerCount bag n ev' ≤ 1 →
        listenerCount (attachDOMTrigger bag nodes ev) n ev' ≤ 1)
    ∧ listenerCount (attachDocumentTrigger bag ev) DomNode.document ev = 1
    ∧ (∀ n ev', ¬(ev' = ev ∧ n = DomNode.document) →
        listenerCount (attachDocumentTrigger bag ev) n ev'
          = listenerCount bag n ev') := by
  have hcount1 : ∀ n, n ∈ nodes → nodes.count n = 1 := by
    intro n hn
    exact List.count_eq_one_of_mem hnd hn
  have hdoc : attachDocumentTrigger bag ev
      = attachDOMTrigger bag [DomNode.document] ev := rfl
  refine ⟨?_, ?_, ?_, ?_, ?_⟩
  · intro n hn
    have hcond : ev = ev ∧ n ∈ nodes := ⟨rfl, hn⟩
    rw [listenerCount_attachDOMTrigger, if_pos hcond, if_pos rfl, hcount1 n hn]
  · intro n ev' h
    rw [listenerCount_attachDOMTrigger, if_neg h]
    by_cases hev : ev' = ev
    · have hn : n ∉ nodes := fun hmem => h ⟨hev, hmem⟩
      rw [if_pos hev, List.count_eq_zero_of_not_mem hn]
      omega
    · rw [if_neg hev]
      omega
  · intro n ev' hle
    rw [listenerCount_attachDOMTrigger]
    by_cases h : ev' = ev ∧ n ∈ nodes
    · rw [if_pos h, if_pos h.1, hcount1 n h.2]
    · rw [if_neg h]
      by_cases hev : ev' = ev
      · have hn : n ∉ nodes := fun hmem => h ⟨hev, hmem⟩
        rw [if_pos hev, List.count_eq_zero_of_not_mem hn]
        omega
      · rw [if_neg hev]
        omega
  · have hcond : ev = ev ∧ DomNode.document ∈ [DomNode.document] :=
      ⟨rfl, List.mem_singleton_self DomNode.document⟩
    rw [hdoc, listenerCount_attachDOMTrigger, if_pos hcond, if_pos rfl]
    rfl
  · intro n ev' h
    rw [hdoc, listenerCount_attachDOMTrigger,
      if_neg (fun hc => h ⟨hc.1, List.mem_singleton.mp hc.2⟩)]
    by_cases hev : ev' = ev
    · have hn : n ≠ DomNode.document := fun hmem => h ⟨hev, hmem⟩
      rw [if_pos hev, List.count_eq_zero_of_not_mem (by simpa using hn)]
      omega
    · rw [if_neg hev]
      omega

/-- Witness for C4: a bag already holding a click registration on element
0, re-attached over elements 0 and 1 — the count for (element 0, click)
is exactly 1 (no duplicate), and an unrelated (element 5, keyup)
registration is untouched. -/
theorem attachDOMTrigger_no_duplicate_listeners_witness :
    listenerCount (attachDOMTrigger [(DomNode.elem 0, "click")]
        [DomNode.elem 0, DomNode.elem 1] "click") (DomNode.elem 0) "click" = 1
    ∧ listenerCount (attachDOMTrigger [(DomNode.elem 5, "keyup")]
        [DomNode.elem 0] "click") (DomNode.elem 5) "keyup"
      = listenerCount [(DomNode.elem 5, "keyup")] (DomNode.elem 5) "keyup" := by
  constructor
  · exact (attachDOMTrigger_no_duplicate_listeners [(DomNode.elem 0, "click")]
      [DomNode.elem 0, DomNode.elem 1] "click" (by decide)).1 (DomNode.elem 0)
      (by decide)
  · exact (attachDOMTrigger_no_duplicate_listeners [(DomNode.elem 5, "keyup")]
      [DomNode.elem 0] "click" (by decide)).2.1 (DomNode.elem 5) "keyup"
      (by decide)

/-- Claim C8: for every trigger instance whose kind is `appear` or a
non-document native DOM event kind (click, dblclick, blur, mouseover,
keydown, keyup, keypress, change) and whose resolved root is the whole
document (no root selector configured), `run()` throws
`Trigger <kind> requires a selector` — and, the result being an error,
attaches no listener or observer. -/
theorem run_document_root_requires_selector (cfg : RunConfig) (t : Trigger)
    (htrig : cfg.trigger = some t) (hreq : requiresSelector t = true) :
    run cfg RootResolved.document
      = Except.error ("Trigger " ++ triggerName t ++ " requires a selector") := by
  obtain ⟨otrig, am, tm, rm, im, ce⟩ := cfg
  simp only at htrig
  subst htrig
  cases t <;> first
    | exact absurd hreq (by decide)
    | rfl

/-- Witness for C8: a `click` trigger with no selector (root resolved to
the document) — `run()` throws. -/
theorem run_document_root_requires_selector_witness :
    run { trigger := some Trigger.click, attachMode := AttachMode.once,
          targetMode := TargetMode.eventTarget, reportMode := ReportMode.all,
          intervalMillis := 0, customEventName := none } RootResolved.document
      = Except.error "Trigger click requires a selector" :=
  run_document_root_requires_selector _ Trigger.click rfl rfl

/-- Claim C9: for a trigger instance of kind `interval` with a configured
period that is not greater than zero, `run()` completes without error and
attaches nothing — in particular no interval loop, so the effect is never
executed for that arm cycle; and a remote definition with no configured
period resolves to the default period 0, which falls in that range. -/
theorem run_interval_nonpositive_no_attach (cfg : RunConfig) (root : RootResolved)
    (htrig : cfg.trigger = some Trigger.interval) (hms : cfg.intervalMillis ≤ 0) :
    run cfg root = Except.ok []
    ∧ ∀ d : TriggerDefinition, d.intervalMillis = none →
        (remoteRunConfig d).intervalMillis = 0 := by
  constructor
  · obtain ⟨otrig, am, tm, rm, im, ce⟩ := cfg
    simp only at htrig hms
    subst htrig
    unfold run attachInterval
    simp only
    rw [if_neg (by omega)]
  · intro d hd
    unfold remoteRunConfig RemoteTriggerExtensionPoint.intervalMillis
    rw [hd]
    rfl

/-- Witness for C9: an `interval` trigger with the default period 0 —
`run()` succeeds and attaches nothing. -/
theorem run_interval_nonpositive_no_attach_witness :
    run { trigger := some Trigger.interval, attachMode := AttachMode.once,
          targetMode := TargetMode.eventTarget, reportMode := ReportMode.once,
          intervalMillis := 0, customEventName := none }
        (RootResolved.elements [4]) = Except.ok [] :=
  (run_interval_nonpositive_no_attach _ (RootResolved.elements [4]) rfl
    (by decide)).1

/-- Claim C10: a trigger instance constructed from a remote declarative
configuration (via `fromJS`) resolves an absent trigger kind to `load`,
so its `run()` performs an immediate one-shot firing instead of throwing
the `No trigger event configured` configuration error; the error branch
of `run()` guarded by a falsy trigger is unreachable for remote-configured
instances because their trigger getter always yields a kind. -/
theorem remote_trigger_defaults_to_load (d : TriggerDefinition) (root : RootResolved) :
    (remoteRunConfig d).trigger ≠ none
    ∧ (d.trigger = none →
        run (remoteRunConfig d) root = Except.ok [RunAction.fireImmediate]) := by
  constructor
  · simp [remoteRunConfig]
  · intro h
    obtain ⟨otrig, rs, am, tm, rm, im, ce, bg⟩ := d
    simp only at h
    subst h
    rfl

/-- Witness for C10: a remote definition with every field absent —
`run()` fires immediately once, as a `load` trigger. -/
theorem remote_trigger_defaults_to_load_witness :
    run (remoteRunConfig
        { trigger := none, rootSelector := none, attachMode := none,
          targetMode := none, reportMode := none, intervalMillis := none,
          customEventName := none, background := none }) RootResolved.document
      = Except.ok [RunAction.fireImmediate] :=
  (remote_trigger_defaults_to_load
    { trigger := none, rootSelector := none, attachMode := none,
      targetMode := none, reportMode := none, intervalMillis := none,
      customEventName := none, background := none } RootResolved.document).2 rfl
